import Mathlib

/-!
Verification development for the expense-tracker chat bot.

The JavaScript source is shallowly embedded in Lean:

* instants are milliseconds since the Unix epoch, as `Int` (JS `Date.getTime()`);
* a host's local timezone is a fixed offset `z : Int` in milliseconds east of
  UTC, so a JS local-component getter (`getDate`, `getMonth`, `getFullYear`)
  reads the proleptic-Gregorian civil components of `t + z`;
* JS numbers are embedded as `Option ℚ`, `none` standing for `NaN` (every
  `<` comparison against `NaN` is false, which the helpers below reproduce);
* an `undefined` string field is embedded as `""` (the source only ever reads
  such fields through `|| ""` or truthiness tests, where the two coincide);
* the `Date` values the repository constructs are modelled by the de-facto
  engine behaviour for exactly the string shapes the repository produces
  (slash and dash numeric forms); shapes outside the model map to `none`,
  i.e. an Invalid Date.
-/

/-- Milliseconds in one civil day. -/
def msPerDay : Int := 86400000

/-- Fixed IST offset the source adds in `convertToIST`: 5.5 * 60 * 60 * 1000 ms. -/
def istOffsetMs : Int := 19800000

/-- Civil (proleptic Gregorian) date: year, 1-based month, 1-based day. -/
structure CivilDate where
  year : Int
  month : Nat
  day : Nat
deriving DecidableEq, Repr

/-- Day count since 1970-01-01 of the civil date (y, m, d), linear in `d` so
that an out-of-range day rolls over exactly as JS `MakeDay` does. -/
def daysFromCivil (y : Int) (m : Nat) (d : Int) : Int :=
  let yAdj : Int := if m ≤ 2 then y - 1 else y
  let era : Int := Int.fdiv yAdj 400
  let yoe : Nat := (yAdj - era * 400).toNat
  let mp : Nat := if 2 < m then m - 3 else m + 9
  let doy : Int := (((153 * mp + 2) / 5 : Nat) : Int) + d - 1
  let doePart : Nat := yoe * 365 + yoe / 4 - yoe / 100
  era * 146097 + (doePart : Int) + doy - 719468

/-- Civil date of a day count since 1970-01-01 (inverse of `daysFromCivil`). -/
def civilFromDays (z : Int) : CivilDate :=
  let zz : Int := z + 719468
  let era : Int := Int.fdiv zz 146097
  let doe : Nat := (zz - era * 146097).toNat
  let yoe : Nat := (doe - doe / 1460 + doe / 36524 - doe / 146096) / 365
  let doy : Nat := doe - (365 * yoe + yoe / 4 - yoe / 100)
  let mp : Nat := (5 * doy + 2) / 153
  let d : Nat := doy - (153 * mp + 2) / 5 + 1
  let m : Nat := if mp < 10 then mp + 3 else mp - 9
  { year := era * 400 + yoe + (if m ≤ 2 then 1 else 0), month := m, day := d }

/-- Civil components a JS host with offset `z` reports for instant `t`
(the local getters `getFullYear`, `getMonth`, `getDate`). -/
def localCivil (z t : Int) : CivilDate :=
  civilFromDays (Int.fdiv (t + z) msPerDay)

/-- Whitespace class used for JS `\s`, `trim` and `parseInt`/`parseFloat`
skipping (ASCII subset; exotic Unicode space code points are not modelled). -/
def jsIsWhitespace (c : Char) : Bool :=
  c = ' ' || c = '\t' || c = '\n' || c = '\r' || c = '\x0b' || c = '\x0c'

/-- List-level trim of JS `String.prototype.trim`. -/
def jsTrimList (l : List Char) : List Char :=
  ((l.dropWhile jsIsWhitespace).reverse.dropWhile jsIsWhitespace).reverse

/-- JS `String.prototype.trim` (ASCII whitespace). -/
def jsTrim (s : String) : String :=
  ⟨jsTrimList s.data⟩

/-- JS `String.prototype.toLowerCase` (ASCII letters). -/
def jsToLowerCase (s : String) : String :=
  ⟨s.data.map Char.toLower⟩

/-- Numeric value of a decimal digit run. -/
def decDigitsVal (l : List Char) : Nat :=
  l.foldl (fun a c => a * 10 + (c.toNat - 48)) 0

/-- Hexadecimal digit test for JS `parseInt` with an 0x prefix. -/
def isHexDigitChar (c : Char) : Bool :=
  c.isDigit || ('a' ≤ c && c ≤ 'f') || ('A' ≤ c && c ≤ 'F')

/-- Value of a hexadecimal digit. -/
def hexDigitVal (c : Char) : Nat :=
  if c.isDigit then c.toNat - 48 else (c.toLower.toNat - 97) + 10

/-- Numeric value of a hexadecimal digit run. -/
def hexDigitsVal (l : List Char) : Nat :=
  l.foldl (fun a c => a * 16 + hexDigitVal c) 0

/-- JS `parseInt(s)` with no radix argument: skip whitespace, optional sign,
an optional 0x/0X prefix selecting base 16, then the longest digit run;
`none` models `NaN` (no digit found). -/
def jsParseInt (s : String) : Option Int :=
  let l := s.data.dropWhile jsIsWhitespace
  let sign : Int := match l with | '-' :: _ => -1 | _ => 1
  let body := match l with | '-' :: r => r | '+' :: r => r | r => r
  let hex := match body with
    | '0' :: 'x' :: _ => true
    | '0' :: 'X' :: _ => true
    | _ => false
  if hex then
    let ds := (body.drop 2).takeWhile isHexDigitChar
    if ds.isEmpty then none else some (sign * (hexDigitsVal ds : Int))
  else
    let ds := body.takeWhile Char.isDigit
    if ds.isEmpty then none else some (sign * (decDigitsVal ds : Int))

/-- JS `parseFloat(s)`: skip whitespace, optional sign, digits, an optional
point and more digits, the value being sign * (intPart + fracPart / 10^k);
`none` models `NaN`. The exponent form ("1e3"), which no input of the
repository exercises, is not modelled. -/
def jsParseFloat (s : String) : Option ℚ :=
  let l := s.data.dropWhile jsIsWhitespace
  let neg : Bool := match l with | '-' :: _ => true | _ => false
  let body := match l with | '-' :: r => r | '+' :: r => r | r => r
  let ip := body.takeWhile Char.isDigit
  let rest := body.drop ip.length
  let fp := match rest with
    | '.' :: r => r.takeWhile Char.isDigit
    | _ => []
  if ip.isEmpty && fp.isEmpty then none
  else
    let mag : Int := ((decDigitsVal ip * 10 ^ fp.length + decDigitsVal fp : Nat) : Int)
    some (mkRat (if neg then -mag else mag) (10 ^ fp.length))

/-- Exact difference x - y of two rationals, written through `Rat.divInt` (the
sealed `Rat.sub` does not reduce in the kernel). -/
def qSub (x y : ℚ) : ℚ :=
  Rat.divInt (x.num * (y.den : Int) - y.num * (x.den : Int)) ((x.den : Int) * (y.den : Int))

/-- Absolute value of a rational, through its numerator. -/
def qAbs (q : ℚ) : ℚ :=
  mkRat (q.num.natAbs : Int) q.den

/-- JS `Math.abs(a - b) < tol` on possibly-NaN numbers: false when either
operand is `NaN`, as every JS comparison with `NaN` is. -/
def jsAbsLt (a b : Option ℚ) (tol : ℚ) : Bool :=
  match a, b with
  | some x, some y => decide (qAbs (qSub x y) < tol)
  | _, _ => false

/-- Remainder of the input after one bot-mention token `<@!?[0-9]+>` matched
at the very head of the list, `none` when no mention starts here. -/
def mentionRest (l : List Char) : Option (List Char) :=
  match l with
  | '<' :: '@' :: r =>
    let r2 := match r with | '!' :: t => t | t => t
    let ds := r2.takeWhile Char.isDigit
    match ds, r2.drop ds.length with
    | _ :: _, '>' :: t => some t
    | _, _ => none
  | _ => none

/-- Fueled scanner for the global replace of `/<@!?[0-9]+>/g` by "": at each
position either a whole mention is skipped or one character is kept. Fuel
`l.length + 1` can never run out because every step consumes a character. -/
def stripMentionsAux : Nat → List Char → List Char
  | 0, l => l
  | _ + 1, [] => []
  | fuel + 1, c :: rest =>
    match mentionRest (c :: rest) with
    | some t => stripMentionsAux fuel t
    | none => c :: stripMentionsAux fuel rest

/-- Mention stripping followed by trim: the source's
`messageContent.replace(/<@!?[0-9]+>/g, "").trim()`. -/
def cleanMessage (s : String) : String :=
  ⟨jsTrimList (stripMentionsAux (s.data.length + 1) s.data)⟩

/-- JS `String.prototype.padStart(2, "0")`. -/
def jsPadStart2 (s : String) : String :=
  if s.length < 2 then ⟨List.replicate (2 - s.length) '0'⟩ ++ s else s

/-- DD/MM/YYYY rendering of a civil date, day and month zero padded, as
`formatDateToIST` builds it from the local getters. -/
def renderDMY (c : CivilDate) : String :=
  jsPadStart2 (toString c.day) ++ "/" ++ jsPadStart2 (toString c.month) ++ "/" ++ toString c.year

/-- Source `convertToIST`: a new Date shifted by the fixed IST offset
(`date.getTime() + 5.5 * 60 * 60 * 1000`). -/
def convertToIST (t : Int) : Int :=
  t + istOffsetMs

/-- Source `formatDateToIST` on a host with offset `z`: shift by the IST
offset, then read the day, month and year with the host-local getters and
render DD/MM/YYYY. An Invalid Date (`none`) renders "NaN/NaN/NaN" exactly as
`NaN.toString().padStart(2, "0")` does in JS. -/
def formatDateToIST (z : Int) (d : Option Int) : String :=
  match d with
  | none => "NaN/NaN/NaN"
  | some t => renderDMY (localCivil z (convertToIST t))

/-- Structural splitter on a separator character, the behaviour of JS
`String.prototype.split` with a one-character separator. -/
def splitOnCharAux (sep : Char) : List Char → List Char → List (List Char)
  | [], acc => [acc.reverse]
  | c :: rest, acc =>
    if c = sep then acc.reverse :: splitOnCharAux sep rest []
    else splitOnCharAux sep rest (c :: acc)

/-- JS `s.split(sep)` for a one-character separator. -/
def splitOnChar (sep : Char) (s : String) : List String :=
  (splitOnCharAux sep s.data []).map (fun l => ⟨l⟩)

/-- Nonempty all-digit string read as a number, `none` otherwise. This is the
fragment of JS string-to-number coercion the repository's date strings use. -/
def digitsOnly (s : String) : Option Nat :=
  if !s.data.isEmpty && s.data.all Char.isDigit then some (decDigitsVal s.data) else none

/-- Two-digit-year fixup of the engines' legacy date parser: a parsed year
below 50 means 20xx, below 100 means 19xx. -/
def fixupShortYear (y : Nat) : Nat :=
  if y < 50 then
    if y < 100 then 2000 + y else y
  else if y < 100 then 1900 + y else y

/-- Instant of `new Date(s)` for a numeric month/day/year form read by the
legacy parser: month 1..12 and day 1..31 are required, an overflowing day
rolls into the next month, and the result is local midnight on a host with
offset `z`. -/
def jsDateFromMDY (z : Int) (mo d y : Nat) : Option Int :=
  if 1 ≤ mo ∧ mo ≤ 12 ∧ 1 ≤ d ∧ d ≤ 31 then
    some (daysFromCivil (y : Int) mo (d : Int) * msPerDay - z)
  else none

/-- Days in a civil month, for the strict ISO form validation. -/
def daysInMonth (y : Int) (m : Nat) : Nat :=
  (daysFromCivil (if m = 12 then y + 1 else y) (if m = 12 then 1 else m + 1) 1
    - daysFromCivil y m 1).toNat

/-- Instant of JS `new Date(s)` on a host with offset `z`, for the three
numeric token shapes the repository's date regex produces: `M/D/Y` and
`M-D-Y` (month first, local midnight, de-facto engine behaviour) and the ISO
form `YYYY-M-D` (strictly validated, UTC midnight). `none` is an Invalid
Date; string shapes outside these three are not modelled and also map to
`none`. -/
def jsNewDateFromString (z : Int) (s : String) : Option Int :=
  if s.data.contains '/' then
    match splitOnChar '/' s with
    | [a, b, c] =>
      match digitsOnly a, digitsOnly b, digitsOnly c with
      | some mo, some d, some y => jsDateFromMDY z mo d (fixupShortYear y)
      | _, _, _ => none
    | _ => none
  else
    match splitOnChar '-' s with
    | [a, b, c] =>
      if a.length = 4 then
        match digitsOnly a, digitsOnly b, digitsOnly c with
        | some y, some mo, some d =>
          if 1 ≤ mo ∧ mo ≤ 12 ∧ 1 ≤ d ∧ d ≤ daysInMonth (y : Int) mo then
            some (daysFromCivil (y : Int) mo (d : Int) * msPerDay)
          else none
        | _, _, _ => none
      else
        match digitsOnly a, digitsOnly b, digitsOnly c with
        | some mo, some d, some y => jsDateFromMDY z mo d (fixupShortYear y)
        | _, _, _ => none
    | _ => none

/-- JS `Number` coercion of a split date part: the empty string is 0, a digit
run is its value, anything else is `NaN` (signs and blanks unmodelled). -/
def jsNumberLoose (s : String) : Option Int :=
  if s.data.isEmpty then some 0
  else if s.data.all Char.isDigit then some ((decDigitsVal s.data : Nat) : Int) else none

/-- Instant of `new Date(y, m0, d)` (numeric constructor, 0-based month) on a
host with offset `z`: a year 0..99 means 1900+y, month and day overflow
normalize through the calendar, and the result is local midnight. -/
def jsDateCtorYMD (z : Int) (y m0 d : Int) : Int :=
  let y2 : Int := if 0 ≤ y ∧ y ≤ 99 then y + 1900 else y
  let ym : Int := y2 + Int.fdiv m0 12
  let mn : Nat := (Int.emod m0 12).toNat
  daysFromCivil ym (mn + 1) d * msPerDay - z

/-- Source `parseISTDateString` on a host with offset `z`: split a DD/MM/YYYY
or DD-MM-YYYY string and build `new Date(parts[2], parts[1] - 1, parts[0])`
(day first). The source returns `null` for a blank or non-3-part string and
an Invalid Date for non-numeric parts; both are `none` here, and both are
discarded identically by every caller (`expenseDate && expenseDate >= t`). -/
def parseISTDateString (z : Int) (s : String) : Option Int :=
  if s.data.isEmpty then none
  else
    match (if s.data.contains '/' then splitOnChar '/' s else splitOnChar '-' s) with
    | [p0, p1, p2] =>
      match jsNumberLoose p2, jsNumberLoose p1, jsNumberLoose p0 with
      | some y, some m, some d => some (jsDateCtorYMD z y (m - 1) d)
      | _, _, _ => none
    | _ => none

/-- Regular-expression abstract syntax, covering exactly the constructs of
the two source regexes: character classes, concatenation, alternation,
greedy option, greedy star over a character class, and capturing groups.
Every star in the source regexes is applied to a single character class
(`\s*`, and `+` desugared to one class and its star), so a dedicated
`starCls` keeps the matcher structurally recursive. -/
inductive Re where
  | eps
  | cls (p : Char → Bool)
  | seq (a b : Re)
  | alt (a b : Re)
  | opt (a : Re)
  | starCls (p : Char → Bool)
  | group (idx : Nat) (a : Re)

/-- Capture list: (group index, match start, match end), most recent first. -/
def Caps := List (Nat × Nat × Nat)

/-- Length of the maximal run of class characters from position `i`: how much
a greedy star consumes before backtracking. -/
def greedyRun (p : Char → Bool) (s : List Char) (i : Nat) : Nat :=
  ((s.drop i).takeWhile p).length

/-- Greedy star backtracking over a character class: try the continuation
after consuming `count` characters, then one fewer, down to zero — exactly a
backtracking engine's behaviour on `class*`. -/
def starClsTry (count : Nat) (i : Nat) (caps : Caps)
    (k : Nat → Caps → Option Caps) : Option Caps :=
  match k (i + count) caps with
  | some res => some res
  | none =>
    match count with
    | 0 => none
    | c + 1 => starClsTry c i caps k

/-- Backtracking matcher with the JS/PCRE strategy: alternation tries the
left branch first, option and star are greedy. -/
def reMatch (r : Re) (s : List Char) (i : Nat) (caps : Caps)
    (k : Nat → Caps → Option Caps) : Option Caps :=
  match r with
  | .eps => k i caps
  | .cls p =>
    match s.get? i with
    | some c => if p c then k (i + 1) caps else none
    | none => none
  | .seq a b => reMatch a s i caps (fun j c2 => reMatch b s j c2 k)
  | .alt a b =>
    match reMatch a s i caps k with
    | some res => some res
    | none => reMatch b s i caps k
  | .opt a =>
    match reMatch a s i caps k with
    | some res => some res
    | none => k i caps
  | .starCls p => starClsTry (greedyRun p s i) i caps k
  | .group n a => reMatch a s i caps (fun j c2 => k j ((n, i, j) :: c2))

/-- Leftmost search of `RegExp.prototype.exec` / `String.prototype.match`
without the g flag: try each start position from the left, first success
wins; group 0 records the whole match. -/
def jsExecAux (r : Re) (s : List Char) : Nat → Nat → Option Caps
  | 0, _ => none
  | tries + 1, start =>
    match reMatch r s start [] (fun j c => some ((0, start, j) :: c)) with
    | some caps => some caps
    | none => jsExecAux r s tries (start + 1)

/-- Captures of the leftmost match of `r` on `s`, or `none` when `s` has no
match anywhere. -/
def jsExecRe (r : Re) (s : List Char) : Option Caps :=
  jsExecAux r s (s.length + 1) 0

/-- Captured text of group `n`: most recent capture wins, an unentered group
is `undefined` (`none`). -/
def capString (s : List Char) (caps : Caps) (n : Nat) : Option String :=
  match caps.find? (fun t => t.1 = n) with
  | some (_, a, b) => some ⟨(s.drop a).take (b - a)⟩
  | none => none

/-- Character class `\d`. -/
def reDigit : Re := Re.cls Char.isDigit

/-- Single literal character. -/
def reChr (c : Char) : Re := Re.cls (fun x => x = c)

/-- Concatenation of a list of pieces. -/
def reSeqL (l : List Re) : Re := l.foldr Re.seq Re.eps

/-- Greedy `+` over a character class. -/
def rePlusCls (p : Char → Bool) : Re := Re.seq (Re.cls p) (Re.starCls p)

/-- Greedy bounded repetition {1,2}. -/
def reRep1to2 (a : Re) : Re := Re.seq a (Re.opt a)

/-- Greedy bounded repetition {2,4}. -/
def reRep2to4 (a : Re) : Re := Re.seq a (Re.seq a (Re.opt (Re.seq a (Re.opt a))))

/-- Exact repetition {4}. -/
def reRep4 (a : Re) : Re := reSeqL [a, a, a, a]

/-- Date alternation of both source regexes:
`[0-9]{1,2}\/[0-9]{1,2}\/[0-9]{2,4}|\d{1,2}-\d{1,2}-\d{2,4}|\d{4}-\d{1,2}-\d{1,2}`. -/
def reDateAlt : Re :=
  Re.alt (reSeqL [reRep1to2 reDigit, reChr '/', reRep1to2 reDigit, reChr '/', reRep2to4 reDigit])
    (Re.alt
      (reSeqL [reRep1to2 reDigit, reChr '-', reRep1to2 reDigit, reChr '-', reRep2to4 reDigit])
      (reSeqL [reRep4 reDigit, reChr '-', reRep1to2 reDigit, reChr '-', reRep1to2 reDigit]))

/-- Amount subpattern `\d+(?:\.\d{1,2})?`. -/
def reAmount : Re :=
  Re.seq (rePlusCls Char.isDigit) (Re.opt (Re.seq (reChr '.') (reRep1to2 reDigit)))

/-- Source `categoryExpenseRegex`:
`([A-Za-z\s]+)\s+\$?(\d+(?:\.\d{1,2})?)\s*(?:(date))?` (the i flag changes
nothing: every class is already case closed). -/
def categoryExpenseRegex : Re :=
  reSeqL [Re.group 1 (rePlusCls (fun c => c.isAlpha || jsIsWhitespace c)),
    rePlusCls jsIsWhitespace, Re.opt (reChr '$'),
    Re.group 2 reAmount, Re.starCls jsIsWhitespace, Re.opt (Re.group 3 reDateAlt)]

/-- Source `amountOnlyRegex`: `\$?(\d+(?:\.\d{1,2})?)\s*(?:(date))?`. -/
def amountOnlyRegex : Re :=
  reSeqL [Re.opt (reChr '$'), Re.group 1 reAmount, Re.starCls jsIsWhitespace,
    Re.opt (Re.group 2 reDateAlt)]

/-- Groups of a `categoryExpenseRegex` match: match[1] category text,
match[2] amount text, match[3] optional date token. -/
structure CatMatch where
  g1 : String
  g2 : String
  g3 : Option String
deriving DecidableEq, Repr

/-- Groups of an `amountOnlyRegex` match: match[1] amount text, match[2]
optional date token. -/
structure AmtMatch where
  g1 : String
  g2 : Option String
deriving DecidableEq, Repr

/-- Match of the category+amount grammar on a cleaned message. -/
def matchCategoryExpense (s : String) : Option CatMatch :=
  match jsExecRe categoryExpenseRegex s.data with
  | none => none
  | some caps =>
    some { g1 := (capString s.data caps 1).getD "", g2 := (capString s.data caps 2).getD "",
           g3 := capString s.data caps 3 }

/-- Match of the amount-only grammar on a cleaned message. -/
def matchAmountOnly (s : String) : Option AmtMatch :=
  match jsExecRe amountOnlyRegex s.data with
  | none => none
  | some caps =>
    some { g1 := (capString s.data caps 1).getD "", g2 := capString s.data caps 2 }

/-- Structured expense record as the parser and the sheet reader build it.
The source's parse result has no timestamp key; the absent field is embedded
as `""`. -/
structure ExpenseRecord where
  category : String
  amount : Option ℚ
  date : String
  description : String
  needsCategorizationHelp : Bool
  timestamp : String
deriving DecidableEq, Repr

/-- Default record for indexing with a fallback (only reached out of range,
which the theorems exclude by hypothesis). -/
def emptyExpense : ExpenseRecord :=
  { category := "", amount := none, date := "", description := "",
    needsCategorizationHelp := false, timestamp := "" }

/-- Date resolution at the end of `parseExpense`: a captured token goes
through `new Date(dateStr)` and `formatDateToIST`; with no token the current
instant is formatted instead. -/
def resolveDate (z now : Int) (dateStr : Option String) : String :=
  match dateStr with
  | some ds => formatDateToIST z (jsNewDateFromString z ds)
  | none => formatDateToIST z (some now)

/-- Source `parseExpense` on a host with offset `z` whose current instant is
`now`: clean the message, try the category+amount grammar, fall back to the
amount-only grammar marking `needsCategorizationHelp`, and resolve the date
token. `none` is the source's `null`. -/
def parseExpense (z now : Int) (messageContent : String) : Option ExpenseRecord :=
  match matchCategoryExpense (cleanMessage messageContent) with
  | some m =>
    some { category := jsTrim m.g1, amount := jsParseFloat m.g2,
           date := resolveDate z now m.g3, description := jsTrim m.g1,
           needsCategorizationHelp := false, timestamp := "" }
  | none =>
    match matchAmountOnly (cleanMessage messageContent) with
    | some m =>
      some { category := "Uncategorized", amount := jsParseFloat m.g1,
             date := resolveDate z now m.g2, description := cleanMessage messageContent,
             needsCategorizationHelp := true, timestamp := "" }
    | none => none

/-- Record built from one sheet row in `fetchRecentExpenses` (columns: date,
category, amount, description, timestamp; the last two default to ""). -/
def rowToExpense (row : List String) : ExpenseRecord :=
  { date := row.getD 0 "", category := row.getD 1 "",
    amount := jsParseFloat (row.getD 2 ""), description := row.getD 3 "",
    needsCategorizationHelp := false, timestamp := row.getD 4 "" }

/-- Source `fetchRecentExpenses(days)` over the sheet's rows (header first):
keep each row of at least 3 cells whose day-first parsed date is at or after
`convertToIST(now)` moved back `days` days. With a fixed host offset,
`setDate(getDate() - days)` is exactly a shift by `days` whole days. -/
def fetchRecentExpenses (z now : Int) (days : Int) (rows : List (List String)) :
    List ExpenseRecord :=
  (rows.drop 1).filterMap (fun row =>
    if 3 ≤ row.length then
      match parseISTDateString z (row.getD 0 "") with
      | some t => if convertToIST now - days * msPerDay ≤ t then some (rowToExpense row) else none
      | none => none
    else none)

/-- Hours-apart test of `detectDuplicateExpense`: both date strings go
through `new Date(...)` and the absolute difference in hours must be under
48; an Invalid Date makes the comparison false (NaN). -/
def jsDatesWithin48Hours (z : Int) (newDateStr storedDateStr : String) : Bool :=
  match jsNewDateFromString z newDateStr, jsNewDateFromString z storedDateStr with
  | some a, some b => decide (mkRat ((a - b).natAbs : Int) (1000 * 60 * 60) < 48)
  | _, _ => false

/-- Filter predicate of `detectDuplicateExpense`: same category
(case-sensitive), amounts within 1 absolute, dates within 48 hours. -/
def isProbableDuplicate (z : Int) (newExpense e : ExpenseRecord) : Bool :=
  (e.category == newExpense.category) && jsAbsLt e.amount newExpense.amount 1
    && jsDatesWithin48Hours z newExpense.date e.date

/-- Source `detectDuplicateExpense`: first stored record (store iteration
order) passing `isProbableDuplicate`, else `null`. -/
def detectDuplicateExpense (z : Int) (newExpense : ExpenseRecord)
    (recentExpenses : List ExpenseRecord) : Option ExpenseRecord :=
  match recentExpenses.filter (isProbableDuplicate z newExpense) with
  | [] => none
  | d :: _ => some d

/-- Duplicate check as `handleExpenseMessage` performs it: the detector runs
over `fetchRecentExpenses(2)` — the past 2 days, per the source comment. -/
def duplicateSuspicion (z now : Int) (candidate : ExpenseRecord)
    (rows : List (List String)) : Option ExpenseRecord :=
  detectDuplicateExpense z candidate (fetchRecentExpenses z now 2 rows)

/-- Filter predicate of `findExpense`: case-insensitive category equality,
amounts within 0.01 absolute, and exact date-string equality when a date
argument was given. -/
def findMatchPred (category : String) (amount : ℚ) (date : Option String)
    (e : ExpenseRecord) : Bool :=
  (jsToLowerCase e.category == jsToLowerCase category)
    && jsAbsLt e.amount (some amount) (mkRat 1 100)
    && (match date with | some ds => e.date == ds | none => true)

/-- Sheet rows matching one expense in `findMatchingRowNumbers`: every row
index from 1 (skipping the header) whose date, category (case-insensitive)
and amount (within 0.01) agree, reported 1-based for the sheets API. -/
def rowsMatching (e : ExpenseRecord) (rows : List (List String)) : List Nat :=
  ((List.range rows.length).drop 1).filterMap (fun i =>
    let row := rows.getD i []
    if 3 ≤ row.length && (row.getD 0 "" == e.date)
        && (jsToLowerCase (row.getD 1 "") == jsToLowerCase e.category)
        && jsAbsLt (jsParseFloat (row.getD 2 "")) e.amount (mkRat 1 100)
    then some (i + 1) else none)

/-- Source `findMatchingRowNumbers` over all filtered expenses, in order. -/
def findMatchingRowNumbers (expenses : List ExpenseRecord)
    (rows : List (List String)) : List Nat :=
  expenses.foldl (fun acc e => acc ++ rowsMatching e rows) []

/-- Result shape of `findExpense`; the source's not-found object carries only
`found: false`, whose absent fields are embedded as empty. -/
structure FindResult where
  found : Bool
  count : Nat
  expenses : List ExpenseRecord
  rows : List Nat
deriving DecidableEq, Repr

/-- Source `findExpense`: filter the last 30 days of records by
`findMatchPred`, then resolve sheet row numbers for the matches. -/
def findExpense (z now : Int) (category : String) (amount : ℚ)
    (date : Option String) (sheet : List (List String)) : FindResult :=
  let filteredExpenses :=
    (fetchRecentExpenses z now 30 sheet).filter (findMatchPred category amount date)
  if filteredExpenses.isEmpty then
    { found := false, count := 0, expenses := [], rows := [] }
  else
    let matchingRows := findMatchingRowNumbers filteredExpenses sheet
    { found := true, count := matchingRows.length, expenses := filteredExpenses,
      rows := matchingRows }

/-- Pending multi-step operation stored per user in `pendingOperations`. -/
inductive PendingOp where
  | deleteConfirm (rowNumber : Nat)
  | editField (rowNumber : Nat) (expenseData : ExpenseRecord)
  | editValue (rowNumber : Nat) (field : String) (expenseData : ExpenseRecord)
  | editSelect (expenses : List ExpenseRecord) (rows : List Nat)
  | deleteSelect (expenses : List ExpenseRecord) (rows : List Nat)
deriving DecidableEq, Repr

/-- Outbound reply of one `handlePendingOperation` step, as a tag carrying
the interpolated data (the exact JS number-to-string rendering inside the
texts is not modelled). -/
inductive BotReply where
  | deletedOk
  | deletionCanceled
  | yesNoReprompt
  | askNewValue (field : String)
  | invalidField
  | updatedOk
  | invalidAmount
  | invalidSelection (count : Nat)
  | confirmDelete (e : ExpenseRecord)
  | askField
deriving DecidableEq, Repr

/-- Observable outcome of one `handlePendingOperation` step: the pending
entry afterwards (`none` = deleted from the map), the sheet row deleted via
`deleteExpense`, the row written via `editExpense`, and the reply sent. -/
structure StepResult where
  newState : Option PendingOp
  deletedRow : Option Nat
  editedRow : Option (Nat × ExpenseRecord)
  reply : BotReply
deriving DecidableEq, Repr

/-- Valid field names of the edit workflow. -/
def validFields : List String := ["category", "amount", "date", "description"]

/-- Character filter of `message.content.replace(/[$,]/g, "")`. -/
def stripDollarComma (s : String) : String :=
  ⟨s.data.filter (fun c => !(c = '$' || c = ','))⟩

/-- Source `handlePendingOperation` acting on one stored operation and one
inbound message (`content`); `response` is its lowercased form exactly as the
source computes it. Each branch mirrors the corresponding `switch` case. -/
def handlePendingOperation (op : PendingOp) (content : String) : StepResult :=
  let response := jsToLowerCase content
  match op with
  | .deleteConfirm rowNumber =>
    if response = "yes" then
      { newState := none, deletedRow := some rowNumber, editedRow := none,
        reply := .deletedOk }
    else if response = "no" then
      { newState := none, deletedRow := none, editedRow := none,
        reply := .deletionCanceled }
    else
      { newState := some op, deletedRow := none, editedRow := none,
        reply := .yesNoReprompt }
  | .editField rowNumber expenseData =>
    if validFields.contains response then
      { newState := some (.editValue rowNumber response expenseData),
        deletedRow := none, editedRow := none, reply := .askNewValue response }
    else
      { newState := some op, deletedRow := none, editedRow := none,
        reply := .invalidField }
  | .editValue rowNumber field expenseData =>
    if field = "category" then
      { newState := none, deletedRow := none,
        editedRow := some (rowNumber, { expenseData with category := jsTrim content }),
        reply := .updatedOk }
    else if field = "amount" then
      match jsParseFloat (stripDollarComma content) with
      | none =>
        { newState := some op, deletedRow := none, editedRow := none,
          reply := .invalidAmount }
      | some amount =>
        { newState := none, deletedRow := none,
          editedRow := some (rowNumber, { expenseData with amount := some amount }),
          reply := .updatedOk }
    else if field = "date" then
      { newState := none, deletedRow := none,
        editedRow := some (rowNumber, { expenseData with date := jsTrim content }),
        reply := .updatedOk }
    else if field = "description" then
      { newState := none, deletedRow := none,
        editedRow := some (rowNumber, { expenseData with description := jsTrim content }),
        reply := .updatedOk }
    else
      { newState := none, deletedRow := none,
        editedRow := some (rowNumber, expenseData), reply := .updatedOk }
  | .editSelect expenses rows =>
    match jsParseInt response with
    | none =>
      { newState := some op, deletedRow := none, editedRow := none,
        reply := .invalidSelection expenses.length }
    | some k =>
      if k - 1 < 0 ∨ (expenses.length : Int) ≤ k - 1 then
        { newState := some op, deletedRow := none, editedRow := none,
          reply := .invalidSelection expenses.length }
      else
        { newState := some (.editField (rows.getD (k - 1).toNat 0)
            (expenses.getD (k - 1).toNat emptyExpense)),
          deletedRow := none, editedRow := none, reply := .askField }
  | .deleteSelect expenses rows =>
    match jsParseInt response with
    | none =>
      { newState := some op, deletedRow := none, editedRow := none,
        reply := .invalidSelection expenses.length }
    | some k =>
      if k - 1 < 0 ∨ (expenses.length : Int) ≤ k - 1 then
        { newState := some op, deletedRow := none, editedRow := none,
          reply := .invalidSelection expenses.length }
      else
        { newState := some (.deleteConfirm (rows.getD (k - 1).toNat 0)),
          deletedRow := none, editedRow := none,
          reply := .confirmDelete (expenses.getD (k - 1).toNat emptyExpense) }

/-- Outcome of the bounded duplicate-confirmation wait: the first reply from
the same author whose lowercased content is "yes" or "no" within the
30-second window, or the timeout. The Discord `awaitMessages` filter, timer
and author check are abstracted into this one observation. -/
inductive DupReply where
  | yes
  | no
  | timedOut
deriving DecidableEq, Repr

/-- Replies of `handleExpenseMessage`, as tags carrying their data. -/
inductive HandlerReply where
  | couldNotUnderstand
  | duplicateWarning (e : ExpenseRecord)
  | recordingCanceled
  | noConfirmationCanceled
  | analyzing (amount : Option ℚ)
  | recorded (e : ExpenseRecord)
deriving DecidableEq, Repr

/-- Observable outcome of `handleExpenseMessage`: the record appended via
`addExpenseToSheet` (none = no write), and the replies sent in order. -/
structure HandlerResult where
  appended : Option ExpenseRecord
  replies : List HandlerReply
deriving DecidableEq, Repr

/-- Behaviour of the optional Gemini collaborator during one handling:
availability, and whether each call throws or what it returns (`none` = a
null return, falsy in the source's truthiness tests). -/
structure GeminiEnv where
  available : Bool
  categorizeThrows : Bool
  categorizeValue : Option String
  enhanceThrows : Bool
  enhanceValue : Option String
deriving DecidableEq, Repr

/-- Categorization step of `handleExpenseMessage`: entered when the category
is "Uncategorized" or help was requested; with Gemini available an analyzing
reply is sent and a truthy suggestion replaces the category (a thrown call
falls back to "Other"); without Gemini the category becomes "Other". -/
def applyCategorization (g : GeminiEnv) (e : ExpenseRecord) :
    ExpenseRecord × List HandlerReply :=
  if e.category == "Uncategorized" || e.needsCategorizationHelp then
    if g.available then
      if g.categorizeThrows then ({ e with category := "Other" }, [.analyzing e.amount])
      else
        match g.categorizeValue with
        | some s => if s ≠ "" then ({ e with category := s }, [.analyzing e.amount])
                    else (e, [.analyzing e.amount])
        | none => (e, [.analyzing e.amount])
    else ({ e with category := "Other" }, [])
  else (e, [])

/-- Enhancement step of `handleExpenseMessage`: with Gemini available and a
truthy description under 10 characters, a truthy different enhancement
replaces the description; a thrown call keeps the original. -/
def applyEnhancement (g : GeminiEnv) (e : ExpenseRecord) : ExpenseRecord :=
  if g.available && (e.description != "") && e.description.length < 10 then
    if g.enhanceThrows then e
    else
      match g.enhanceValue with
      | some s => if s ≠ "" && s ≠ e.description then { e with description := s } else e
      | none => e
  else e

/-- Tail of `handleExpenseMessage` past the duplicate gate: categorize,
enhance, append to the sheet and confirm. -/
def finishExpense (g : GeminiEnv) (expenseData : ExpenseRecord)
    (pre : List HandlerReply) : HandlerResult :=
  let step := applyCategorization g expenseData
  let e2 := applyEnhancement g step.1
  { appended := some e2, replies := pre ++ step.2 ++ [.recorded e2] }

/-- Source `handleExpenseMessage`: parse, check for a probable duplicate over
the past 2 days (skipped entirely when that check throws, per the outer
try/catch), gate persistence on the confirmation outcome, then categorize,
enhance and append. -/
def handleExpenseMessage (z now : Int) (content : String) (sheet : List (List String))
    (dupCheckErrored : Bool) (dupReply : DupReply) (g : GeminiEnv) : HandlerResult :=
  match parseExpense z now content with
  | none => { appended := none, replies := [.couldNotUnderstand] }
  | some expenseData =>
    match (if dupCheckErrored then none else duplicateSuspicion z now expenseData sheet) with
    | some pd =>
      match dupReply with
      | .no =>
        { appended := none, replies := [.duplicateWarning pd, .recordingCanceled] }
      | .timedOut =>
        { appended := none, replies := [.duplicateWarning pd, .noConfirmationCanceled] }
      | .yes => finishExpense g expenseData [.duplicateWarning pd]
    | none => finishExpense g expenseData []

/-- Formatting the local-midnight instant of day `D` on the same host offset
`z` cancels the offset: the rendered date is day `D` shifted by the IST
offset only (which is less than a day, so it stays day `D`). -/
theorem formatDateToIST_localMidnight (z D : Int) :
    formatDateToIST z (some (D * msPerDay - z)) = renderDMY (civilFromDays D) := by
  simp only [formatDateToIST, convertToIST, localCivil]
  have h1 : D * msPerDay - z + istOffsetMs + z = istOffsetMs + D * msPerDay := by ring
  rw [h1, show msPerDay = (86400000 : Int) from rfl, show istOffsetMs = (19800000 : Int) from rfl,
    Int.fdiv_eq_ediv _ (by decide), Int.add_mul_ediv_right _ _ (by decide : (86400000 : Int) ≠ 0)]
  norm_num

/-- The slash token "03/05/2025" resolves, on every host offset, to the JS
month-first reading March 5 rendered day-first: "05/03/2025". -/
theorem resolveDate_slash_0305 (z now : Int) :
    resolveDate z now (some "03/05/2025") = "05/03/2025" := by
  have h1 : jsNewDateFromString z "03/05/2025"
      = some (daysFromCivil 2025 3 5 * msPerDay - z) := rfl
  simp only [resolveDate]
  rw [h1, formatDateToIST_localMidnight]
  decide

/-- C1 (counterexample): the claim says `parse("Rent $800 03/05/2025")` has
date string "03/05/2025" (day 3, month 5); the code yields "05/03/2025" —
the slash token went through the month-first JS Date reading. -/
theorem c1_slash_token_counterexample :
    Option.map (fun r => ExpenseRecord.date r) (parseExpense 0 0 "Rent $800 03/05/2025")
        = some "05/03/2025"
      ∧ Option.map (fun r => ExpenseRecord.date r) (parseExpense 0 0 "Rent $800 03/05/2025")
        ≠ some "03/05/2025" :=
  ⟨by decide, by decide⟩

/-- C1 (amended): a D/M/Y-looking slash token is interpreted month-first (JS
`new Date(string)` semantics) and re-rendered day-first, on every host offset
and at every current instant: parse("Rent $800 03/05/2025") yields category
"Rent", amount 800 and date "05/03/2025" (March 5), not "03/05/2025". -/
theorem c1_parse_slash_token_month_first (z now : Int) :
    parseExpense z now "Rent $800 03/05/2025" =
      some { category := "Rent", amount := some 800, date := "05/03/2025",
             description := "Rent", needsCategorizationHelp := false, timestamp := "" } := by
  have hm : matchCategoryExpense (cleanMessage "Rent $800 03/05/2025")
      = some { g1 := "Rent", g2 := "800", g3 := some "03/05/2025" } := by decide
  simp only [parseExpense, hm]
  rw [resolveDate_slash_0305]
  decide

/-- C2: `formatDateToIST` is not a function of the instant alone — the code
adds the IST offset but then extracts components with host-local getters, so
two hosts (UTC and UTC-6) render the same instant (the epoch) differently,
against the function's own IST documentation. -/
theorem c2_formatDateToIST_host_dependent :
    formatDateToIST 0 (some 0) = "01/01/1970"
      ∧ formatDateToIST (-21600000) (some 0) = "31/12/1969"
      ∧ formatDateToIST 0 (some 0) ≠ formatDateToIST (-21600000) (some 0) :=
  ⟨by decide, by decide, by decide⟩

/-- Filter-then-head of `detectDuplicateExpense` is the first match in store
iteration order. -/
theorem detectDuplicateExpense_eq_find (z : Int) (c : ExpenseRecord)
    (l : List ExpenseRecord) :
    detectDuplicateExpense z c l = l.find? (isProbableDuplicate z c) := by
  induction l with
  | nil => rfl
  | cons a t ih =>
    cases hp : isProbableDuplicate z c a with
    | true => simp [detectDuplicateExpense, List.filter_cons, List.find?_cons, hp]
    | false =>
      simpa [detectDuplicateExpense, List.filter_cons, List.find?_cons, hp] using ih

/-- Duplicate predicate unfolded into the three conditions of the source:
case-sensitive category equality, amount difference under 1, and the 48-hour
test over the JS-parsed date strings. -/
theorem isProbableDuplicate_eq_true_iff (z : Int) (c e : ExpenseRecord) :
    isProbableDuplicate z c e = true ↔
      (e.category = c.category ∧ jsAbsLt e.amount c.amount 1 = true
        ∧ jsDatesWithin48Hours z c.date e.date = true) := by
  simp [isProbableDuplicate, Bool.and_eq_true, and_assoc, beq_iff_eq]

/-- C3 (amended): the handler's duplicate check reports a stored record if
and only if it is the first record, in store iteration order, of the 2-day
fetch window (`fetchRecentExpenses(2)`, not 30 days) satisfying all three
conditions: case-sensitive category equality, absolute amount difference
strictly under 1, and under 48 hours between the JS-parsed date strings. -/
theorem c3_duplicate_first_match_two_day_window (z now : Int) (cand : ExpenseRecord)
    (sheet : List (List String)) (d : ExpenseRecord) :
    duplicateSuspicion z now cand sheet = some d ↔
      ((d.category = cand.category ∧ jsAbsLt d.amount cand.amount 1 = true
          ∧ jsDatesWithin48Hours z cand.date d.date = true)
        ∧ ∃ l1 l2, fetchRecentExpenses z now 2 sheet = l1 ++ d :: l2
          ∧ ∀ e ∈ l1, ¬(e.category = cand.category ∧ jsAbsLt e.amount cand.amount 1 = true
              ∧ jsDatesWithin48Hours z cand.date e.date = true)) := by
  rw [duplicateSuspicion, detectDuplicateExpense_eq_find, List.find?_eq_some]
  constructor
  · rintro ⟨hp, as, bs, heq, hall⟩
    refine ⟨(isProbableDuplicate_eq_true_iff z cand d).mp hp, as, bs, heq, ?_⟩
    intro e he hc
    have hfalse := hall e he
    rw [(isProbableDuplicate_eq_true_iff z cand e).mpr hc] at hfalse
    simp at hfalse
  · rintro ⟨hd, as, bs, heq, hall⟩
    refine ⟨(isProbableDuplicate_eq_true_iff z cand d).mpr hd, as, bs, heq, ?_⟩
    intro e he
    cases hpe : isProbableDuplicate z cand e with
    | true => exact absurd ((isProbableDuplicate_eq_true_iff z cand e).mp hpe) (hall e he)
    | false => simp

/-- Host offset of the C3 scenario: UTC-6. -/
def c3Host : Int := -21600000

/-- Current instant of the C3 scenario: 2025-05-02 01:00:00 IST. -/
def c3Now : Int := daysFromCivil 2025 5 2 * msPerDay + 3600000 - istOffsetMs

/-- Candidate record of the C3 scenario, dated 2 May 2025. -/
def c3Candidate : ExpenseRecord :=
  { category := "Lunch", amount := some 10, date := "02/05/2025",
    description := "Lunch", needsCategorizationHelp := false, timestamp := "" }

/-- Sheet of the C3 scenario: a header row and one record dated 2 April 2025
(30 days before the candidate). -/
def c3Sheet : List (List String) :=
  [["Date", "Category", "Amount", "Description", "Timestamp"],
   ["02/04/2025", "Lunch", "10", "", ""]]

/-- The stored record of the C3 scenario as `fetchRecentExpenses` reads it. -/
def c3Stored : ExpenseRecord :=
  { category := "Lunch", amount := some 10, date := "02/04/2025",
    description := "", needsCategorizationHelp := false, timestamp := "" }

/-- C3 (counterexample): a stored record inside the 30-day trailing window
that meets all three duplicate conditions (same category, equal amount, JS
date strings 24 hours apart) and would be reported when consulting that
window — yet the handler's check reports nothing, because it consults only
`fetchRecentExpenses(2)`. -/
theorem c3_thirty_day_window_counterexample :
    duplicateSuspicion c3Host c3Now c3Candidate c3Sheet = none
      ∧ detectDuplicateExpense c3Host c3Candidate
          (fetchRecentExpenses c3Host c3Now 30 c3Sheet) = some c3Stored
      ∧ c3Stored ∈ fetchRecentExpenses c3Host c3Now 30 c3Sheet
      ∧ (c3Stored.category = c3Candidate.category
          ∧ jsAbsLt c3Stored.amount c3Candidate.amount 1 = true
          ∧ jsDatesWithin48Hours c3Host c3Candidate.date c3Stored.date = true) :=
  ⟨by decide, by decide, by decide, by decide, by decide, by decide⟩

/-- C4: once a duplicate is suspected, persistence is gated on the
confirmation outcome — a "no" reply and a timeout each append nothing and
each send their cancellation reply, and an append can only happen when the
outcome was "yes". -/
theorem c4_decline_or_timeout_cancels (z now : Int) (content : String)
    (sheet : List (List String)) (g : GeminiEnv) (e d : ExpenseRecord)
    (hp : parseExpense z now content = some e)
    (hd : duplicateSuspicion z now e sheet = some d) :
    (handleExpenseMessage z now content sheet false DupReply.no g).appended = none
      ∧ HandlerReply.recordingCanceled
          ∈ (handleExpenseMessage z now content sheet false DupReply.no g).replies
      ∧ (handleExpenseMessage z now content sheet false DupReply.timedOut g).appended = none
      ∧ HandlerReply.noConfirmationCanceled
          ∈ (handleExpenseMessage z now content sheet false DupReply.timedOut g).replies
      ∧ ∀ dr : DupReply,
          (handleExpenseMessage z now content sheet false dr g).appended ≠ none →
            dr = DupReply.yes := by
  have hmain : ∀ dr : DupReply, handleExpenseMessage z now content sheet false dr g =
      (match dr with
       | DupReply.no =>
         { appended := none, replies := [.duplicateWarning d, .recordingCanceled] }
       | DupReply.timedOut =>
         { appended := none, replies := [.duplicateWarning d, .noConfirmationCanceled] }
       | DupReply.yes => finishExpense g e [.duplicateWarning d]) := by
    intro dr
    simp only [handleExpenseMessage, hp, Bool.false_eq_true, if_false, hd]
  refine ⟨?_, ?_, ?_, ?_, ?_⟩
  · rw [hmain DupReply.no]
  · rw [hmain DupReply.no]; simp
  · rw [hmain DupReply.timedOut]
  · rw [hmain DupReply.timedOut]; simp
  · intro dr h
    cases dr with
    | yes => rfl
    | no => rw [hmain DupReply.no] at h; simp at h
    | timedOut => rw [hmain DupReply.timedOut] at h; simp at h

/-- Current instant of the C4 witness scenario: 2025-05-02 00:00:00 IST. -/
def c4Now : Int := daysFromCivil 2025 5 2 * msPerDay

/-- Sheet of the C4 witness scenario: a header and one same-day record. -/
def c4Sheet : List (List String) :=
  [["Date", "Category", "Amount", "Description", "Timestamp"],
   ["02/05/2025", "Lunch", "10", "", ""]]

/-- Gemini collaborator absent in the C4 witness scenario. -/
def c4Gemini : GeminiEnv :=
  { available := false, categorizeThrows := false, categorizeValue := none,
    enhanceThrows := false, enhanceValue := none }

/-- Parse result of "Lunch $10" in the C4 witness scenario. -/
def c4Parsed : ExpenseRecord :=
  { category := "Lunch", amount := some 10, date := "02/05/2025",
    description := "Lunch", needsCategorizationHelp := false, timestamp := "" }

/-- Suspected duplicate of the C4 witness scenario. -/
def c4Stored : ExpenseRecord :=
  { category := "Lunch", amount := some 10, date := "02/05/2025",
    description := "", needsCategorizationHelp := false, timestamp := "" }

/-- C4 (witness): the cancellation guarantees at a concrete suspected
duplicate, discharging both hypotheses by evaluation. -/
theorem c4_decline_or_timeout_cancels_witness :
    (handleExpenseMessage 0 c4Now "Lunch $10" c4Sheet false DupReply.no c4Gemini).appended = none
      ∧ HandlerReply.recordingCanceled
          ∈ (handleExpenseMessage 0 c4Now "Lunch $10" c4Sheet false DupReply.no c4Gemini).replies
      ∧ (handleExpenseMessage 0 c4Now "Lunch $10" c4Sheet false DupReply.timedOut c4Gemini).appended = none
      ∧ HandlerReply.noConfirmationCanceled
          ∈ (handleExpenseMessage 0 c4Now "Lunch $10" c4Sheet false DupReply.timedOut c4Gemini).replies
      ∧ ∀ dr : DupReply,
          (handleExpenseMessage 0 c4Now "Lunch $10" c4Sheet false dr c4Gemini).appended ≠ none →
            dr = DupReply.yes :=
  c4_decline_or_timeout_cancels 0 c4Now "Lunch $10" c4Sheet c4Gemini c4Parsed c4Stored
    (by decide) (by decide)

/-- C5 (amended): in the select states, acceptance is governed by JS
`parseInt` of the lowercased reply — a reply whose parseInt value `k`
satisfies 1 ≤ k ≤ n transitions to `DeleteConfirm` (resp. `EditFieldSelect`)
targeting exactly the k-th candidate's row (and a subsequent "yes" deletes
exactly that row), while a reply with no parseInt value or one out of range
re-prompts and leaves the pending operation unchanged. Since parseInt reads a
leading integer prefix, a reply such as "2x" counts as selecting 2. -/
theorem c5_select_index_validation (expenses : List ExpenseRecord) (rows : List Nat)
    (reply : String) (_hlen : rows.length = expenses.length) :
    (∀ k : Int, jsParseInt (jsToLowerCase reply) = some k → 1 ≤ k →
        k ≤ (expenses.length : Int) →
        (handlePendingOperation (.deleteSelect expenses rows) reply =
            { newState := some (.deleteConfirm (rows.getD (k - 1).toNat 0)),
              deletedRow := none, editedRow := none,
              reply := .confirmDelete (expenses.getD (k - 1).toNat emptyExpense) }
          ∧ handlePendingOperation (.editSelect expenses rows) reply =
            { newState := some (.editField (rows.getD (k - 1).toNat 0)
                (expenses.getD (k - 1).toNat emptyExpense)),
              deletedRow := none, editedRow := none, reply := .askField }
          ∧ handlePendingOperation (.deleteConfirm (rows.getD (k - 1).toNat 0)) "yes" =
            { newState := none, deletedRow := some (rows.getD (k - 1).toNat 0),
              editedRow := none, reply := .deletedOk }))
      ∧ ((∀ k : Int, jsParseInt (jsToLowerCase reply) = some k →
            k < 1 ∨ (expenses.length : Int) < k) →
          handlePendingOperation (.deleteSelect expenses rows) reply =
            { newState := some (.deleteSelect expenses rows), deletedRow := none,
              editedRow := none, reply := .invalidSelection expenses.length }
          ∧ handlePendingOperation (.editSelect expenses rows) reply =
            { newState := some (.editSelect expenses rows), deletedRow := none,
              editedRow := none, reply := .invalidSelection expenses.length }) := by
  constructor
  · intro k hk h1 h2
    refine ⟨?_, ?_, rfl⟩
    · simp only [handlePendingOperation, hk]
      rw [if_neg (by omega)]
    · simp only [handlePendingOperation, hk]
      rw [if_neg (by omega)]
  · intro hinv
    cases hj : jsParseInt (jsToLowerCase reply) with
    | none => exact ⟨by simp only [handlePendingOperation, hj], by simp only [handlePendingOperation, hj]⟩
    | some k =>
      have hk := hinv k hj
      exact ⟨by simp only [handlePendingOperation, hj]; rw [if_pos (by omega)],
        by simp only [handlePendingOperation, hj]; rw [if_pos (by omega)]⟩

/-- First candidate of the C5 scenarios. -/
def c5First : ExpenseRecord :=
  { category := "Coffee", amount := some 4, date := "01/05/2025",
    description := "Coffee", needsCategorizationHelp := false, timestamp := "" }

/-- Second candidate of the C5 scenarios. -/
def c5Second : ExpenseRecord :=
  { category := "Coffee", amount := some 4, date := "02/05/2025",
    description := "Coffee", needsCategorizationHelp := false, timestamp := "" }

/-- C5 (counterexample): the claim says a non-numeric reply re-prompts and
leaves the pending operation unchanged; the reply "2x" is not a numeral, yet
the code accepts it (JS `parseInt("2x") = 2`) and transitions to the
delete-confirmation state for the second candidate. -/
theorem c5_nonnumeric_reply_accepted_counterexample :
    handlePendingOperation (.deleteSelect [c5First, c5Second] [5, 9]) "2x" =
        { newState := some (.deleteConfirm 9), deletedRow := none, editedRow := none,
          reply := .confirmDelete c5Second }
      ∧ ¬ ("2x".data.all Char.isDigit = true)
      ∧ (handlePendingOperation (.deleteSelect [c5First, c5Second] [5, 9]) "2x").newState
          ≠ some (.deleteSelect [c5First, c5Second] [5, 9]) :=
  ⟨by decide, by decide, by decide⟩

/-- C5 (witness): the validation at a concrete two-candidate list — reply "2"
selects the second candidate's row 9, and "yes" then deletes row 9. -/
theorem c5_select_index_validation_witness :
    handlePendingOperation (.deleteSelect [c5First, c5Second] [5, 9]) "2" =
        { newState := some (.deleteConfirm 9), deletedRow := none, editedRow := none,
          reply := .confirmDelete c5Second }
      ∧ handlePendingOperation (.deleteConfirm 9) "yes" =
        { newState := none, deletedRow := some 9, editedRow := none,
          reply := .deletedOk } := by
  have h := (c5_select_index_validation [c5First, c5Second] [5, 9] "2" rfl).1 2
    (by decide) (by decide) (by decide)
  exact ⟨h.1, h.2.2⟩

/-- Lookup predicate of `findExpense` unfolded: case-insensitive category
equality, amount within 0.01, and exact date equality when a date argument
was supplied. -/
theorem findMatchPred_eq_true_iff (category : String) (amount : ℚ)
    (dateArg : Option String) (e : ExpenseRecord) :
    findMatchPred category amount dateArg e = true ↔
      (jsToLowerCase e.category = jsToLowerCase category
        ∧ jsAbsLt e.amount (some amount) (mkRat 1 100) = true
        ∧ ∀ ds, dateArg = some ds → e.date = ds) := by
  cases dateArg with
  | none => simp [findMatchPred, Bool.and_eq_true, beq_iff_eq, and_assoc]
  | some d0 => simp [findMatchPred, Bool.and_eq_true, beq_iff_eq, and_assoc]

/-- C6: the edit/delete lookup returns exactly the records of the 30-day
trailing fetch window that pass the lookup predicate — equal category up to
case, amount within 0.01 absolute, exact date string when one was given —
and never a record from outside that window. -/
theorem c6_find_expense_window_filter (z now : Int) (category : String) (amount : ℚ)
    (dateArg : Option String) (sheet : List (List String)) :
    (findExpense z now category amount dateArg sheet).expenses
        = (fetchRecentExpenses z now 30 sheet).filter (findMatchPred category amount dateArg)
      ∧ ∀ e : ExpenseRecord,
          e ∈ (findExpense z now category amount dateArg sheet).expenses ↔
            (e ∈ fetchRecentExpenses z now 30 sheet
              ∧ jsToLowerCase e.category = jsToLowerCase category
              ∧ jsAbsLt e.amount (some amount) (mkRat 1 100) = true
              ∧ ∀ ds, dateArg = some ds → e.date = ds) := by
  have hexp : (findExpense z now category amount dateArg sheet).expenses
      = (fetchRecentExpenses z now 30 sheet).filter (findMatchPred category amount dateArg) := by
    simp only [findExpense]
    split
    case isTrue h => exact (List.isEmpty_iff.mp h).symm
    case isFalse h => rfl
  refine ⟨hexp, fun e => ?_⟩
  rw [hexp, List.mem_filter, findMatchPred_eq_true_iff]

/-- C7: an input that fails the category+amount grammar but matches the
amount-only grammar parses to a record with category "Uncategorized", the
categorization-help flag set, and the entire cleaned input (mention-stripped
and trimmed) as description. -/
theorem c7_amount_only_fallback (z now : Int) (s : String)
    (h1 : matchCategoryExpense (cleanMessage s) = none)
    (h2 : (matchAmountOnly (cleanMessage s)).isSome = true) :
    ∃ r : ExpenseRecord, parseExpense z now s = some r
      ∧ r.category = "Uncategorized"
      ∧ r.needsCategorizationHelp = true
      ∧ r.description = cleanMessage s := by
  cases hm : matchAmountOnly (cleanMessage s) with
  | none => rw [hm] at h2; simp at h2
  | some m =>
    have hp : parseExpense z now s = some { category := "Uncategorized", amount := jsParseFloat m.g1, date := resolveDate z now m.g2, description := cleanMessage s, needsCategorizationHelp := true, timestamp := "" } := by
      simp only [parseExpense, h1, hm]
    exact ⟨_, hp, rfl, rfl, rfl⟩

/-- C7 (witness): the fallback at the concrete input "$25". -/
theorem c7_amount_only_fallback_witness :
    ∃ r : ExpenseRecord, parseExpense 0 0 "$25" = some r
      ∧ r.category = "Uncategorized"
      ∧ r.needsCategorizationHelp = true
      ∧ r.description = cleanMessage "$25" :=
  c7_amount_only_fallback 0 0 "$25" (by decide) (by decide)

/-- Padding to two characters never shortens below two. -/
theorem two_le_length_jsPadStart2 (s : String) : 2 ≤ (jsPadStart2 s).length := by
  unfold jsPadStart2
  split
  case isTrue h =>
    rw [String.length_append]
    have h2 : (String.mk (List.replicate (2 - s.length) '0')).length = 2 - s.length := by
      rw [show (String.mk (List.replicate (2 - s.length) '0')).length
          = (List.replicate (2 - s.length) '0').length from rfl, List.length_replicate]
    omega
  case isFalse h => omega

/-- A rendered DD/MM/YYYY string is never empty. -/
theorem renderDMY_ne_empty (c : CivilDate) : renderDMY c ≠ "" := by
  intro h
  have h1 := two_le_length_jsPadStart2 (toString c.day)
  have hl := congrArg String.length h
  simp only [renderDMY, String.length_append] at hl
  rw [show ("" : String).length = 0 from rfl] at hl
  omega

/-- The date formatter never returns the empty string (an Invalid Date still
renders as "NaN/NaN/NaN"). -/
theorem formatDateToIST_ne_empty (z : Int) (o : Option Int) :
    formatDateToIST z o ≠ "" := by
  cases o with
  | none => simp [formatDateToIST]
  | some t => exact renderDMY_ne_empty _

/-- Date resolution never returns the empty string. -/
theorem resolveDate_ne_empty (z now : Int) (ds : Option String) :
    resolveDate z now ds ≠ "" := by
  cases ds with
  | none => exact formatDateToIST_ne_empty z (some now)
  | some d => exact formatDateToIST_ne_empty z (jsNewDateFromString z d)

/-- C8: the unparseable input "hello there" yields null on every host and at
every instant, and no partial record is ever returned — every successful
parse carries a populated date and is one of the two complete shapes (an
explicit parse whose description equals its category, or the amount-only
fallback with "Uncategorized" and the cleaned input as description). -/
theorem c8_unparseable_null_and_no_partial_record :
    (∀ z now : Int, parseExpense z now "hello there" = none)
      ∧ (∀ (z now : Int) (s : String) (r : ExpenseRecord),
          parseExpense z now s = some r →
            r.date ≠ ""
              ∧ ((r.needsCategorizationHelp = false ∧ r.description = r.category)
                ∨ (r.needsCategorizationHelp = true ∧ r.category = "Uncategorized"
                    ∧ r.description = cleanMessage s))) := by
  constructor
  · intro z now; rfl
  · intro z now s r h
    cases h1 : matchCategoryExpense (cleanMessage s) with
    | some m =>
      simp only [parseExpense, h1, Option.some.injEq] at h
      subst h
      exact ⟨resolveDate_ne_empty z now m.g3, Or.inl ⟨rfl, rfl⟩⟩
    | none =>
      cases h2 : matchAmountOnly (cleanMessage s) with
      | none =>
        simp only [parseExpense, h1, h2] at h
        exact Option.noConfusion h
      | some m =>
        simp only [parseExpense, h1, h2, Option.some.injEq] at h
        subst h
        exact ⟨resolveDate_ne_empty z now m.g2, Or.inr ⟨rfl, rfl, rfl⟩⟩

/-- C9: every successful parse satisfies exactly one of — the category was
explicitly parsed from the category grammar with the help flag off, or the
help flag is on with category "Uncategorized" — and never both. -/
theorem c9_explicit_category_xor_fallback (z now : Int) (s : String) (r : ExpenseRecord)
    (h : parseExpense z now s = some r) :
    ((r.needsCategorizationHelp = false
        ∧ ∃ m, matchCategoryExpense (cleanMessage s) = some m ∧ r.category = jsTrim m.g1)
      ∧ ¬(r.needsCategorizationHelp = true ∧ r.category = "Uncategorized"))
    ∨ ((r.needsCategorizationHelp = true ∧ r.category = "Uncategorized")
      ∧ ¬(r.needsCategorizationHelp = false
          ∧ ∃ m, matchCategoryExpense (cleanMessage s) = some m ∧ r.category = jsTrim m.g1)) := by
  cases h1 : matchCategoryExpense (cleanMessage s) with
  | some m =>
    simp only [parseExpense, h1, Option.some.injEq] at h
    subst h
    left
    refine ⟨⟨rfl, m, rfl, rfl⟩, ?_⟩
    rintro ⟨hh, _⟩
    simp at hh
  | none =>
    cases h2 : matchAmountOnly (cleanMessage s) with
    | none =>
      simp only [parseExpense, h1, h2] at h
      exact Option.noConfusion h
    | some m =>
      simp only [parseExpense, h1, h2, Option.some.injEq] at h
      subst h
      right
      refine ⟨⟨rfl, rfl⟩, ?_⟩
      rintro ⟨hh, _⟩
      simp at hh

/-- Parse result of "Lunch $5" at host offset 0 and instant 0, for the C9
witness. -/
def c9Parsed : ExpenseRecord :=
  { category := "Lunch", amount := some 5, date := "01/01/1970",
    description := "Lunch", needsCategorizationHelp := false, timestamp := "" }

/-- C9 (witness): the dichotomy at the concrete parse of "Lunch $5". -/
theorem c9_explicit_category_xor_fallback_witness :
    ((c9Parsed.needsCategorizationHelp = false
        ∧ ∃ m, matchCategoryExpense (cleanMessage "Lunch $5") = some m
            ∧ c9Parsed.category = jsTrim m.g1)
      ∧ ¬(c9Parsed.needsCategorizationHelp = true ∧ c9Parsed.category = "Uncategorized"))
    ∨ ((c9Parsed.needsCategorizationHelp = true ∧ c9Parsed.category = "Uncategorized")
      ∧ ¬(c9Parsed.needsCategorizationHelp = false
          ∧ ∃ m, matchCategoryExpense (cleanMessage "Lunch $5") = some m
              ∧ c9Parsed.category = jsTrim m.g1)) :=
  c9_explicit_category_xor_fallback 0 0 "Lunch $5" c9Parsed (by decide)

/-- C10: a completed edit-value step writes back, at the operation's target
row, a record agreeing with the original on every field other than the one
being edited (timestamp included, which no field choice can touch). -/
theorem c10_edit_value_frame (rowNumber : Nat) (field : String) (orig : ExpenseRecord)
    (reply : String) (hf : field ∈ validFields) :
    ∀ (targetRow : Nat) (written : ExpenseRecord),
      (handlePendingOperation (.editValue rowNumber field orig) reply).editedRow
          = some (targetRow, written) →
        targetRow = rowNumber
          ∧ (field ≠ "category" → written.category = orig.category)
          ∧ (field ≠ "amount" → written.amount = orig.amount)
          ∧ (field ≠ "date" → written.date = orig.date)
          ∧ (field ≠ "description" → written.description = orig.description)
          ∧ written.timestamp = orig.timestamp := by
  intro targetRow written h
  fin_cases hf
  · simp only [handlePendingOperation, String.reduceEq, reduceIte, Option.some.injEq,
      Prod.mk.injEq] at h
    obtain ⟨hr, hw⟩ := h
    subst hr
    subst hw
    exact ⟨rfl, fun hne => absurd rfl hne, fun _ => rfl, fun _ => rfl, fun _ => rfl, rfl⟩
  · simp only [handlePendingOperation, String.reduceEq, reduceIte] at h
    cases hpf : jsParseFloat (stripDollarComma reply) with
    | none => rw [hpf] at h; exact Option.noConfusion h
    | some a =>
      rw [hpf] at h
      simp only [Option.some.injEq, Prod.mk.injEq] at h
      obtain ⟨hr, hw⟩ := h
      subst hr
      subst hw
      exact ⟨rfl, fun _ => rfl, fun hne => absurd rfl hne, fun _ => rfl, fun _ => rfl, rfl⟩
  · simp only [handlePendingOperation, String.reduceEq, reduceIte, Option.some.injEq,
      Prod.mk.injEq] at h
    obtain ⟨hr, hw⟩ := h
    subst hr
    subst hw
    exact ⟨rfl, fun _ => rfl, fun _ => rfl, fun hne => absurd rfl hne, fun _ => rfl, rfl⟩
  · simp only [handlePendingOperation, String.reduceEq, reduceIte, Option.some.injEq,
      Prod.mk.injEq] at h
    obtain ⟨hr, hw⟩ := h
    subst hr
    subst hw
    exact ⟨rfl, fun _ => rfl, fun _ => rfl, fun _ => rfl, fun hne => absurd rfl hne, rfl⟩

/-- Original record of the C10 witness. -/
def c10Orig : ExpenseRecord :=
  { category := "Food", amount := some 5, date := "01/05/2025",
    description := "Food", needsCategorizationHelp := false, timestamp := "02/05/2025 10:00:00" }

/-- Record written by the C10 witness edit (amount changed to 30). -/
def c10Written : ExpenseRecord :=
  { category := "Food", amount := some 30, date := "01/05/2025",
    description := "Food", needsCategorizationHelp := false, timestamp := "02/05/2025 10:00:00" }

/-- C10 (witness): the frame property at a concrete amount edit (row 7,
reply "30"). -/
theorem c10_edit_value_frame_witness :
    (7 : Nat) = 7
      ∧ ("amount" ≠ "category" → c10Written.category = c10Orig.category)
      ∧ ("amount" ≠ "amount" → c10Written.amount = c10Orig.amount)
      ∧ ("amount" ≠ "date" → c10Written.date = c10Orig.date)
      ∧ ("amount" ≠ "description" → c10Written.description = c10Orig.description)
      ∧ c10Written.timestamp = c10Orig.timestamp :=
  c10_edit_value_frame 7 "amount" c10Orig "30" (by decide) 7 c10Written (by decide)
